import Mathlib

/-!
# Chainlink: transactional executor and OCR data source

A shallow embedding of

* `core/services/pg/transaction.go` (`applyDefaults`, `sqlxTransactionQ`), and
* `core/services/offchainreporting/data_source.go` (`updateAnswer`,
  `currentAnswer`, `Observe`),

followed by the properties proved about them.

Conventions of the embedding.

* A Go `error` is an `Option Err`: `none` is `nil`, `some e` a non-nil error.
* The collaborators a function talks to (database driver, caller-supplied work,
  pipeline runner, clock) are explicit arguments that say how each call answers.
* Effects on collaborators are recorded as a list of events, in program order.
* A Go panic is an explicit way for a function to finish (`Outcome.panicked`).
-/

namespace Chainlink

/-! ## Errors (github.com/pkg/errors, go.uber.org/multierr) -/

/-- Non-nil Go error values, as the term they were built from. -/
inductive Err where
  /-- An error made from a message: `errors.New`, `errors.Errorf`, a driver error. -/
  | base (msg : String)
  /-- The value of `errors.Wrap(inner, msg)` and `errors.Wrapf(inner, ...)`. -/
  | wrap (inner : Err) (msg : String)
  /-- The value of `errors.WithStack(inner)`. -/
  | withStack (inner : Err)
  /-- The value of `multierr.Combine(first, second)` for two non-nil errors.
  The library lays the errors of a composite argument out flat in the new
  composite; the term keeps the two arguments as they were given. -/
  | combined (first second : Err)
  deriving DecidableEq, Repr

/-- Go `errors.Wrap(err, msg)`: `nil` for a `nil` error. -/
def errorsWrap : Option Err → String → Option Err
  | none, _ => none
  | some e, msg => some (Err.wrap e msg)

/-- Go `errors.WithStack(err)`: `nil` for a `nil` error. -/
def errorsWithStack : Option Err → Option Err
  | none => none
  | some e => some (Err.withStack e)

/-- Go `multierr.Combine(a, b)`: `nil` errors are skipped, a single remaining
error is returned as it is, two are kept together in one composite. -/
def multierrCombine : Option Err → Option Err → Option Err
  | none, b => b
  | some a, none => some a
  | some a, some b => some (Err.combined a b)

/-- Go `err.Error()`, the message of an error. -/
def Err.Error : Err → String
  | Err.base msg => msg
  | Err.wrap inner msg => msg ++ ": " ++ inner.Error
  | Err.withStack inner => inner.Error
  | Err.combined first second => first.Error ++ "; " ++ second.Error

/-- Go `errors.Cause(err)`: the error under the `Wrap` and `WithStack` layers. -/
def Err.Cause : Err → Err
  | Err.wrap inner _ => inner.Cause
  | Err.withStack inner => inner.Cause
  | e => e

/-- Whether `part` is `whole` or one of the errors `whole` was built from. -/
def Err.contains (whole part : Err) : Bool :=
  decide (whole = part) ||
    match whole with
    | Err.base _ => false
    | Err.wrap inner _ => inner.contains part
    | Err.withStack inner => inner.contains part
    | Err.combined first second => first.contains part || second.contains part

/-! ## Panics -/

/-- The value a Go panic carries, as `recover()` returns it. -/
inductive PanicVal where
  /-- The value of `panic(nil)`: `recover()` returns `nil` for it (Go before
  1.21, the releases this source was written for), while still ending the
  panic. -/
  | nil
  /-- A string: `panic("...")`, `panic(fmt.Sprintf(...))`. -/
  | str (s : String)
  /-- Any other non-nil value, with the text `%s` prints for it. -/
  | other (rendering : String)
  deriving DecidableEq, Repr

/-- The text `fmt.Sprintf("%s", p)` gives. -/
def PanicVal.format : PanicVal → String
  | PanicVal.nil => "%!s(<nil>)"
  | PanicVal.str s => s
  | PanicVal.other rendering => rendering

/-- How a Go function that returns `error` finishes: it returns, or a panic
leaves it. -/
inductive Outcome where
  | returned (err : Option Err)
  | panicked (p : PanicVal)
  deriving DecidableEq, Repr

/-! ## pg/transaction.go -/

/-- Go `time.Duration`: a count of nanoseconds. -/
abbrev Duration := Int

/-- Go `time.Second`. -/
def Second : Duration := 1000000000

/-- Go `time.Hour`. -/
def Hour : Duration := 3600 * Second

/-- Go `Duration.Milliseconds`: integer division, rounding toward zero. -/
def Milliseconds (d : Duration) : Int := Int.tdiv d 1000000

/-- Go `sql.IsolationLevel`. -/
abbrev IsolationLevel := Int

/-- Go `sql.LevelDefault`, the zero value. -/
def LevelDefault : IsolationLevel := 0

/-- Go `sql.LevelReadCommitted`. -/
def LevelReadCommitted : IsolationLevel := 2

/-- Go `sql.TxOptions`. -/
structure SqlTxOptions where
  Isolation : IsolationLevel
  ReadOnly : Bool
  deriving DecidableEq, Repr

/-- The pg `TxOptions`: `sql.TxOptions` embedded, and the two timeouts. -/
structure TxOptions extends SqlTxOptions where
  LockTimeout : Duration
  IdleInTxSessionTimeout : Duration
  deriving DecidableEq, Repr

def DefaultLockTimeout : Duration := 15 * Second

def DefaultIdleInTxSessionTimeout : Duration := 1 * Hour

def DefaultIsolation : IsolationLevel := LevelReadCommitted

/-- The function `OptReadOnlyTx`: every field zero but `ReadOnly`. -/
def OptReadOnlyTx : TxOptions :=
  { Isolation := 0, ReadOnly := true, LockTimeout := 0, IdleInTxSessionTimeout := 0 }

/-- The function `applyDefaults` (lines 44-67): the resolved lock timeout, idle
timeout and `sql.TxOptions`. Only the first element of `optss` is read. -/
def applyDefaults (optss : List TxOptions) : Duration × Duration × SqlTxOptions :=
  match optss with
  | [] =>
    (DefaultLockTimeout, DefaultIdleInTxSessionTimeout,
      { Isolation := DefaultIsolation, ReadOnly := false })
  | opts :: _ =>
    (if opts.LockTimeout ≠ 0 then opts.LockTimeout else DefaultLockTimeout,
     if opts.IdleInTxSessionTimeout ≠ 0 then opts.IdleInTxSessionTimeout
       else DefaultIdleInTxSessionTimeout,
      { Isolation := if opts.Isolation ≠ 0 then opts.Isolation else DefaultIsolation,
        ReadOnly := opts.ReadOnly })

/-- The two statements `sqlxTransactionQ` passes to `tx.Exec`, with the number
of milliseconds printed into them. -/
inductive Stmt where
  /-- The statement `SET LOCAL lock_timeout = %d`. -/
  | setLocalLockTimeout (ms : Int)
  /-- The statement `SET LOCAL idle_in_transaction_session_timeout = %d`. -/
  | setLocalIdleInTransactionSessionTimeout (ms : Int)
  deriving DecidableEq, Repr

/-- The SQL text of a statement. -/
def Stmt.sql : Stmt → String
  | Stmt.setLocalLockTimeout ms => "SET LOCAL lock_timeout = " ++ toString ms
  | Stmt.setLocalIdleInTransactionSessionTimeout ms =>
    "SET LOCAL idle_in_transaction_session_timeout = " ++ toString ms

/-- A call `sqlxTransactionQ` makes on a collaborator. -/
inductive Event where
  /-- The call `db.BeginTxx(ctx, &txOpts)`. -/
  | beginTxx (txOpts : SqlTxOptions)
  /-- The call `tx.Exec(stmt)`. -/
  | exec (stmt : Stmt)
  /-- The call `fn(tx)`, the caller-supplied work. -/
  | fn
  /-- The call `tx.Commit()`. -/
  | commit
  /-- The call `tx.Rollback()`. -/
  | rollback
  /-- The call `sentry.CurrentHub().Recover(p)`. -/
  | sentryRecover (p : PanicVal)
  /-- The call `sentry.Flush(logger.SentryFlushDeadline)`. -/
  | sentryFlush
  /-- The call `lggr.Errorf`, with the formatted message. -/
  | logErrorf (msg : String)
  /-- The call `lggr.Debugf`, with the formatted message. -/
  | logDebugf (msg : String)
  deriving DecidableEq, Repr

/-- How the collaborators of one `sqlxTransactionQ` call answer. -/
structure Collaborators where
  /-- The error of `db.BeginTxx(ctx, &txOpts)`. -/
  beginTxx : SqlTxOptions → Option Err
  /-- The error of `tx.Exec(stmt)`. -/
  exec : Stmt → Option Err
  /-- How `fn(tx)` finishes: the error it returns, or the panic it raises. -/
  fn : Outcome
  /-- The error of `tx.Commit()`. -/
  commit : Option Err
  /-- The error of `tx.Rollback()`. -/
  rollback : Option Err
  /-- Which case the `select` of lines 107-112 takes after a panic: `true` when
  `done` is closed first (the rollback returned within 10s), `false` when
  `time.After(10 * time.Second)` fires first. -/
  rollbackWithinCeiling : Bool

/-- Lines 131-140: the idle-timeout statement, then the work. The result is the
events and how the body finishes: the value of the named result `err` at
`return`, or the panic in flight. -/
def idleTimeoutThenFn (c : Collaborators) (idleInTxSessionTimeout : Duration) :
    List Event × Outcome :=
  if idleInTxSessionTimeout ≠ DefaultIdleInTxSessionTimeout then
    let stmt := Stmt.setLocalIdleInTransactionSessionTimeout
      (Milliseconds idleInTxSessionTimeout)
    match c.exec stmt with
    | some e =>
      ([Event.exec stmt], Outcome.returned (errorsWrap (some e)
        "error setting transaction local idle_in_transaction_session_timeout"))
    | none => ([Event.exec stmt, Event.fn], c.fn)
  else ([Event.fn], c.fn)

/-- Lines 125-140: the body of `sqlxTransactionQ` after the deferred function is
registered. -/
def body (c : Collaborators) (lockTimeout idleInTxSessionTimeout : Duration) :
    List Event × Outcome :=
  if lockTimeout ≠ DefaultLockTimeout then
    let stmt := Stmt.setLocalLockTimeout (Milliseconds lockTimeout)
    match c.exec stmt with
    | some e =>
      ([Event.exec stmt], Outcome.returned (errorsWrap (some e)
        "error setting transaction local lock_timeout"))
    | none =>
      (Event.exec stmt :: (idleTimeoutThenFn c idleInTxSessionTimeout).1,
        (idleTimeoutThenFn c idleInTxSessionTimeout).2)
  else idleTimeoutThenFn c idleInTxSessionTimeout

/-- The panic raised when the rollback after a panic takes longer than 10s
(line 111). -/
def rollbackTimeoutPanic (p : PanicVal) : PanicVal :=
  PanicVal.str
    ("panic in transaction; aborting rollback that took longer than 10s: " ++ p.format)

/-- Lines 113-122: the two branches of the deferred function that look at the
named result `err`: roll back when it is non-nil, commit when it is nil. -/
def rollbackOrCommit (c : Collaborators) (err : Option Err) : List Event × Outcome :=
  match err with
  | some err =>
    ([Event.logDebugf ("Error in transaction, rolling back: " ++ err.Error),
      Event.rollback],
      match c.rollback with
      | some rerr =>
        Outcome.returned (multierrCombine (some err) (errorsWithStack (some rerr)))
      | none => Outcome.returned (some err))
  | none =>
    ([Event.commit], Outcome.returned (errorsWithStack c.commit))

/-- Lines 93-123: the deferred function, run when the body finishes with
`exit`. When the body panics, the named result `err` is still `nil`: the work
is only called after `BeginTxx` and every `tx.Exec` before it left `err` nil,
and the assignment of line 138 never happens. A panic whose value `recover()`
returns as `nil` fails the test `p != nil` of line 94, so the call goes on to
the branches on `err` and then returns normally. -/
def deferred (c : Collaborators) (exit : Outcome) : List Event × Outcome :=
  match exit with
  | Outcome.panicked p =>
    if p ≠ PanicVal.nil then
      if c.rollbackWithinCeiling then
        ([Event.sentryRecover p, Event.sentryFlush,
          Event.logErrorf ("Panic in transaction, rolling back: " ++ p.format),
          Event.rollback] ++
          (match c.rollback with
            | some rerr => [Event.logErrorf ("Failed to rollback on panic: " ++ rerr.Error)]
            | none => []),
          Outcome.panicked p)
      else
        ([Event.sentryRecover p, Event.sentryFlush,
          Event.logErrorf ("Panic in transaction, rolling back: " ++ p.format),
          Event.rollback],
          Outcome.panicked (rollbackTimeoutPanic p))
    else rollbackOrCommit c none
  | Outcome.returned err => rollbackOrCommit c err

/-- The function `sqlxTransactionQ` (lines 85-141): the calls it makes on its
collaborators, in order, and how it finishes. -/
def sqlxTransactionQ (c : Collaborators) (optss : List TxOptions) :
    List Event × Outcome :=
  let lockTimeout := (applyDefaults optss).1
  let idleInTxSessionTimeout := (applyDefaults optss).2.1
  let txOpts := (applyDefaults optss).2.2
  match c.beginTxx txOpts with
  | some e =>
    ([Event.beginTxx txOpts],
      Outcome.returned (errorsWrap (some e) "failed to begin transaction"))
  | none =>
    let run := body c lockTimeout idleInTxSessionTimeout
    (Event.beginTxx txOpts :: (run.1 ++ (deferred c run.2).1), (deferred c run.2).2)

/-- The number of `tx.Commit()` calls among the events. -/
def commits (events : List Event) : Nat := events.count Event.commit

/-- The number of `tx.Rollback()` calls among the events. -/
def rollbacks (events : List Event) : Nat := events.count Event.rollback

/-- Whether the event is a `tx.Exec` call. -/
def Event.isExec : Event → Bool
  | Event.exec _ => true
  | _ => false

/-- Whether the event is a `SET LOCAL lock_timeout` statement. -/
def Event.isLockTimeoutExec : Event → Bool
  | Event.exec (Stmt.setLocalLockTimeout _) => true
  | _ => false

/-- Whether the event is a `SET LOCAL idle_in_transaction_session_timeout`
statement. -/
def Event.isIdleTimeoutExec : Event → Bool
  | Event.exec (Stmt.setLocalIdleInTransactionSessionTimeout _) => true
  | _ => false

/-- Collaborators that never fail, around work that finishes as `fn` says. -/
def healthy (fn : Outcome) : Collaborators :=
  { beginTxx := fun _ => none, exec := fun _ => none, fn := fn,
    commit := none, rollback := none, rollbackWithinCeiling := true }

/-- Whether every statement the call passes to `tx.Exec` succeeds. -/
def directivesSucceed (c : Collaborators) (optss : List TxOptions) : Bool :=
  (sqlxTransactionQ c optss).1.all fun ev =>
    match ev with
    | Event.exec stmt => (c.exec stmt).isNone
    | _ => true

/-- Whether no `tx.Exec` call comes after a call of the work. -/
def noExecAfterFn : List Event → Bool
  | [] => true
  | Event.fn :: rest => !rest.any Event.isExec
  | _ :: rest => noExecAfterFn rest

/-- Collaborators whose `BeginTxx` fails. -/
def beginFails : Collaborators :=
  { healthy (Outcome.returned none) with
    beginTxx := fun _ => some (Err.base "connection refused") }

/-- Collaborators whose `Rollback` fails, around work that finishes as `fn`
says. -/
def rollbackFails (fn : Outcome) : Collaborators :=
  { healthy fn with rollback := some (Err.base "driver: bad connection") }

/-- Options asking for a lock timeout of 1s and an idle timeout of 2s. -/
def shortTimeouts : TxOptions :=
  { Isolation := 0, ReadOnly := false, LockTimeout := 1 * Second,
    IdleInTxSessionTimeout := 2 * Second }

/-- The type `decimal.Decimal` of github.com/shopspring/decimal: the number
`value * 10 ^ exp`. -/
structure Decimal where
  value : Int
  exp : Int
  deriving DecidableEq, Repr

/-- The method `Decimal.BigInt` of github.com/shopspring/decimal: the integer
part of the number, the fraction dropped (rounding toward zero). -/
def Decimal.BigInt (d : Decimal) : Int :=
  if 0 ≤ d.exp then d.value * 10 ^ d.exp.toNat
  else Int.tdiv d.value (10 ^ (-d.exp).toNat)

/-- The number a run of decimal digits writes, after the digits read so far;
`none` when a character is no digit. -/
def parseDigits (acc : Nat) : List Char → Option Nat
  | [] => some acc
  | c :: cs =>
    if c.isDigit then parseDigits (acc * 10 + (c.toNat - 48)) cs else none

/-- An unsigned decimal numeral, `digits` or `digits.digits` with at least one
digit, as a `Decimal`. -/
def parseUnsigned (cs : List Char) : Option Decimal :=
  let intPart := cs.takeWhile (fun c => c ≠ '.')
  match cs.dropWhile (fun c => c ≠ '.') with
  | [] =>
    if intPart = [] then none
    else (parseDigits 0 intPart).map (fun n => { value := (n : Int), exp := 0 })
  | _ :: frac =>
    if intPart = [] ∧ frac = [] then none
    else (parseDigits 0 (intPart ++ frac)).map
      (fun n => { value := (n : Int), exp := -(frac.length : Int) })

/-- Modelled from the spec: `decimal.NewFromString`, behind `utils.ToDecimal`,
is not among the source files. The spec asks for an exact decimal
representation of the value: an optional sign, digits, and an optional
fraction are read exactly; any other text is a conversion failure. -/
def NewFromString (s : String) : Option Decimal :=
  match s.data with
  | '-' :: cs => (parseUnsigned cs).map (fun d => { d with value := -d.value })
  | '+' :: cs => parseUnsigned cs
  | cs => parseUnsigned cs

/-- A value a pipeline task yields (a Go `interface{}`). -/
inductive Value where
  | str (s : String)
  | int (i : Int)
  | decimal (d : Decimal)
  /-- A value of a type that has no decimal reading. -/
  | other (description : String)
  deriving DecidableEq, Repr

/-- Modelled from the spec: `utils.ToDecimal` is not among the source files.
The spec says the singular result's value is converted to an exact decimal
representation and that a conversion failure is a reported error. -/
def ToDecimal : Value → Except Err Decimal
  | Value.str s =>
    match NewFromString s with
    | some d => Except.ok d
    | none => Except.error (Err.base ("can't convert " ++ s ++ " to decimal"))
  | Value.int i => Except.ok { value := i, exp := 0 }
  | Value.decimal d => Except.ok d
  | Value.other description =>
    Except.error (Err.base ("type cannot be converted to decimal.Decimal: " ++ description))

/-- The type `pipeline.Result`: a value and an error. -/
structure Result where
  Value : Value
  Error : Option Err
  deriving DecidableEq, Repr

/-- One node of a run's result tree: the task's result, and whether the task
is terminal (has no successor). -/
structure TaskRunResult where
  IsTerminal : Bool
  Result : Result
  deriving DecidableEq, Repr

/-- The type `pipeline.TaskRunResults`, the result tree of a run. -/
abbrev TaskRunResults := List TaskRunResult

/-- The final result set of a run: its terminal outcomes. -/
structure FinalResult where
  outcomes : List Result
  deriving DecidableEq, Repr

/-- Modelled from the spec: `TaskRunResults.FinalResult` is not among the
source files. The spec says it extracts the run's final result set, the
terminal outcomes of the result tree. -/
def TaskRunResults.FinalResult (trrs : TaskRunResults) : FinalResult :=
  { outcomes := (trrs.filter (fun trr => trr.IsTerminal)).map (fun trr => trr.Result) }

/-- Modelled from the spec: `FinalResult.SingularResult` is not among the
source files. The spec says it reduces the result set to one singular
value-or-error outcome and fails if zero or multiple terminal outcomes
exist. -/
def FinalResult.SingularResult (fr : FinalResult) : Except Err Result :=
  match fr.outcomes with
  | [r] => Except.ok r
  | _ =>
    Except.error (Err.base
      "cannot cast FinalResult to singular result; it does not have exactly 1 outcome")

/-- The type `bridges.BridgeMetaData`: two `*big.Int`, `none` for `nil`. -/
structure BridgeMetaData where
  LatestAnswer : Option Int
  UpdatedAt : Option Int
  deriving DecidableEq, Repr

/-- The run record, `pipeline.Run`; this code only passes it on. -/
structure Run where
  ID : Int
  deriving DecidableEq, Repr

/-- The fields of `job.Job` that `Observe` reads; `Name` is a nullable string. -/
structure Job where
  ID : Int
  ExternalJobID : String
  Name : Option String
  deriving DecidableEq, Repr

/-- The fields of `pipeline.Spec` that `Observe` reads. -/
structure Spec where
  ID : Int
  JobID : Int
  deriving DecidableEq, Repr

/-- The metadata map `bridges.MarshalBridgeMetaData` returns, as its JSON text. -/
structure Meta where
  json : String
  deriving DecidableEq, Repr

/-- The variables `Observe` hands to the run (lines 59-68); `jobRunMeta` is
`none` when `md` is the `nil` map. -/
structure Vars where
  databaseID : Int
  externalJobID : String
  name : String
  jobRunMeta : Option Meta
  deriving DecidableEq, Repr

/-- A buffered Go channel of run records: the records waiting in it, oldest
first, and its capacity. -/
structure Chan where
  buf : List Run
  cap : Nat
  deriving DecidableEq, Repr

/-- The `select` of lines 82-86: a send that does not wait. `some` of the
channel with the record appended when there is room, `none` (the `default`
case) when the channel is at capacity. A receiver already waiting on the
channel counts as room. -/
def Chan.trySend (ch : Chan) (run : Run) : Option Chan :=
  if ch.buf.length < ch.cap then some { ch with buf := ch.buf ++ [run] } else none

/-- The state of the struct `dataSource`. The runner and the logger are
collaborators and live in `ObserveEnv`; the mutex has no state of its own
here, since every call runs to its end before the next. -/
structure dataSource where
  jobSpec : Job
  spec : Spec
  runResults : Chan
  current : BridgeMetaData
  deriving DecidableEq, Repr

/-- How the collaborators of one `Observe` call answer. -/
structure ObserveEnv where
  /-- The function `bridges.MarshalBridgeMetaData(latestAnswer, updatedAt)`. -/
  MarshalBridgeMetaData : Option Int → Option Int → Except Err Meta
  /-- The call `ds.pipelineRunner.ExecuteRun(ctx, ds.spec, vars, ds.ocrLogger)`. -/
  ExecuteRun : Spec → Vars → Run × TaskRunResults × Option Err
  /-- The value of `time.Now().Unix()`. -/
  now : Int

/-- The method `updateAnswer` (lines 35-42). -/
def dataSource.updateAnswer (ds : dataSource) (now : Int) (a : Option Int) : dataSource :=
  { ds with current := { LatestAnswer := a, UpdatedAt := some now } }

/-- The method `currentAnswer` (lines 44-48). -/
def dataSource.currentAnswer (ds : dataSource) : Option Int × Option Int :=
  (ds.current.LatestAnswer, ds.current.UpdatedAt)

/-- Lines 54-57 of `Observe`: the metadata of the cached answer, `none` (the
`nil` map) when marshalling fails. -/
def dataSource.observeMeta (env : ObserveEnv) (ds : dataSource) : Option Meta :=
  match env.MarshalBridgeMetaData ds.currentAnswer.1 ds.currentAnswer.2 with
  | Except.ok md => some md
  | Except.error _ => none

/-- Lines 59-68 of `Observe`: the variables of the run. -/
def dataSource.observeVars (env : ObserveEnv) (ds : dataSource) : Vars :=
  { databaseID := ds.jobSpec.ID,
    externalJobID := ds.jobSpec.ExternalJobID,
    name := ds.jobSpec.Name.getD "",
    jobRunMeta := ds.observeMeta env }

/-- What one `Observe` call leaves behind: the two values it returns (`none`
is `nil`) and the state of the data source after it. -/
structure Observed where
  observation : Option Int
  err : Option Err
  ds : dataSource
  deriving DecidableEq, Repr

/-- The error of line 72. -/
def executeRunError (ds : dataSource) (err : Err) : Err :=
  Err.wrap err ("error executing run for spec ID " ++ toString ds.spec.ID)

/-- The error of line 85. -/
def bufferFullError (ds : dataSource) : Err :=
  Err.base ("unable to enqueue run save for job ID " ++ toString ds.spec.JobID ++
    ", buffer full")

/-- The error of line 90. -/
def singularResultError (ds : dataSource) (err : Err) : Err :=
  Err.wrap err ("error getting singular result for job ID " ++ toString ds.spec.JobID)

/-- The error of line 99. -/
def toDecimalError (err : Err) : Err :=
  Err.wrap err "cannot convert observation to decimal"

/-- The method `Observe` (lines 52-103). -/
def dataSource.Observe (env : ObserveEnv) (ds : dataSource) : Observed :=
  match env.ExecuteRun ds.spec (ds.observeVars env) with
  | (_, _, some err) =>
    { observation := none, err := some (executeRunError ds err), ds := ds }
  | (run, trrs, none) =>
    let finalResult := trrs.FinalResult
    match ds.runResults.trySend run with
    | none => { observation := none, err := some (bufferFullError ds), ds := ds }
    | some ch =>
      let sent : dataSource := { ds with runResults := ch }
      match finalResult.SingularResult with
      | Except.error err =>
        { observation := none, err := some (singularResultError ds err), ds := sent }
      | Except.ok result =>
        match result.Error with
        | some e => { observation := none, err := some e, ds := sent }
        | none =>
          match ToDecimal result.Value with
          | Except.error err =>
            { observation := none, err := some (toDecimalError err), ds := sent }
          | Except.ok asDecimal =>
            { observation := some asDecimal.BigInt, err := none,
              ds := sent.updateAnswer env.now (some asDecimal.BigInt) }

/-- A data source for job 7 with an empty cache and an empty queue of the
given capacity. -/
def freshDataSource (cap : Nat) : dataSource :=
  { jobSpec := { ID := 7, ExternalJobID := "0eec7e1d", Name := some "ocr" },
    spec := { ID := 3, JobID := 7 },
    runResults := { buf := [], cap := cap },
    current := { LatestAnswer := none, UpdatedAt := none } }

/-- Collaborators of `Observe` at time `now` whose run finishes without error
with the result tree `trrs`. -/
def runYielding (trrs : TaskRunResults) (now : Int) : ObserveEnv :=
  { MarshalBridgeMetaData := fun a u =>
      Except.ok { json := toString (repr a) ++ "," ++ toString (repr u) },
    ExecuteRun := fun _ _ => ({ ID := 1 }, trrs, none),
    now := now }

/-- A result tree with one terminal outcome, the value `v`. -/
def oneValue (v : Value) : TaskRunResults :=
  [{ IsTerminal := false, Result := { Value := Value.str "7", Error := none } },
   { IsTerminal := true, Result := { Value := v, Error := none } }]

/-- A data source for job 7 whose queue of capacity 1 already holds a record,
with the answer 5 cached at time 100. -/
def fullDataSource : dataSource :=
  { jobSpec := { ID := 7, ExternalJobID := "0eec7e1d", Name := some "ocr" },
    spec := { ID := 3, JobID := 7 },
    runResults := { buf := [{ ID := 0 }], cap := 1 },
    current := { LatestAnswer := some 5, UpdatedAt := some 100 } }

/-- A result tree with two terminal outcomes. -/
def twoOutcomes : TaskRunResults :=
  [{ IsTerminal := true, Result := { Value := Value.str "1", Error := none } },
   { IsTerminal := true, Result := { Value := Value.str "2", Error := none } }]

/-- A result tree whose one terminal outcome carries an error. -/
def oneError (e : Err) : TaskRunResults :=
  [{ IsTerminal := true, Result := { Value := Value.other "nil", Error := some e } }]

/-! ## Properties of pg/transaction.go -/

/-- C6: `applyDefaults` merges the defaults field by field. -/
theorem applyDefaults_merges_defaults :
    applyDefaults [] =
        (15000000000, 3600000000000, { Isolation := 2, ReadOnly := false }) ∧
    (∀ (o : TxOptions) (rest : List TxOptions),
      ((applyDefaults (o :: rest)).1 =
          if o.LockTimeout ≠ 0 then o.LockTimeout else 15000000000) ∧
      ((applyDefaults (o :: rest)).2.1 =
          if o.IdleInTxSessionTimeout ≠ 0 then o.IdleInTxSessionTimeout
          else 3600000000000) ∧
      ((applyDefaults (o :: rest)).2.2.Isolation =
          if o.Isolation ≠ 0 then o.Isolation else 2) ∧
      (applyDefaults (o :: rest)).2.2.ReadOnly = o.ReadOnly) ∧
    (∀ optss : List TxOptions,
      (applyDefaults optss).1 ≠ 0 ∧ (applyDefaults optss).2.1 ≠ 0 ∧
      (applyDefaults optss).2.2.Isolation ≠ LevelDefault) := by
  refine ⟨by decide, ?_, ?_⟩
  · intro o rest
    simp [applyDefaults, DefaultLockTimeout, DefaultIdleInTxSessionTimeout,
      DefaultIsolation, LevelReadCommitted, Second, Hour]
  · intro optss
    cases optss with
    | nil => decide
    | cons o rest =>
      simp only [applyDefaults]
      refine ⟨?_, ?_, ?_⟩
      · split_ifs with h
        · exact h
        · decide
      · split_ifs with h
        · exact h
        · decide
      · show (if o.Isolation ≠ 0 then o.Isolation else DefaultIsolation) ≠ LevelDefault
        split_ifs with h
        · exact h
        · decide

/-- Every event of the body is a `tx.Exec` call or the call of the work. -/
theorem body_events (c : Collaborators) (lockTimeout idleInTxSessionTimeout : Duration)
    (ev : Event) (hev : ev ∈ (body c lockTimeout idleInTxSessionTimeout).1) :
    ev = Event.fn ∨ ∃ stmt, ev = Event.exec stmt := by
  unfold body idleTimeoutThenFn at hev
  split_ifs at hev <;> simp_all <;> aesop

theorem body_commits (c : Collaborators) (lockTimeout idleInTxSessionTimeout : Duration) :
    commits (body c lockTimeout idleInTxSessionTimeout).1 = 0 := by
  unfold commits
  rw [List.count_eq_zero]
  intro h
  rcases body_events c _ _ _ h with h | ⟨stmt, h⟩ <;> cases h

theorem body_rollbacks (c : Collaborators) (lockTimeout idleInTxSessionTimeout : Duration) :
    rollbacks (body c lockTimeout idleInTxSessionTimeout).1 = 0 := by
  unfold rollbacks
  rw [List.count_eq_zero]
  intro h
  rcases body_events c _ _ _ h with h | ⟨stmt, h⟩ <;> cases h

theorem deferred_commits_rollbacks (c : Collaborators) (exit : Outcome) :
    commits (deferred c exit).1 + rollbacks (deferred c exit).1 = 1 := by
  unfold deferred commits rollbacks
  rcases exit with ⟨_ | err⟩ | p
  · simp [rollbackOrCommit]
  · simp [rollbackOrCommit]
  · by_cases hp : p = PanicVal.nil
    · simp [hp, rollbackOrCommit]
    · cases c.rollbackWithinCeiling <;> cases c.rollback <;> simp [hp]

theorem commits_cons_append (ev : Event) (xs ys : List Event) :
    commits (ev :: (xs ++ ys)) = commits [ev] + commits xs + commits ys := by
  simp [commits, List.count_cons, List.count_append]; omega

theorem rollbacks_cons_append (ev : Event) (xs ys : List Event) :
    rollbacks (ev :: (xs ++ ys)) = rollbacks [ev] + rollbacks xs + rollbacks ys := by
  simp [rollbacks, List.count_cons, List.count_append]; omega

/-- C1, counterexample: when `BeginTxx` fails, the call returns before the
deferred function is registered; neither `Commit` nor `Rollback` is called. -/
theorem sqlxTransactionQ_begin_fails_no_commit_no_rollback :
    commits (sqlxTransactionQ beginFails []).1 +
      rollbacks (sqlxTransactionQ beginFails []).1 = 0 ∧
    commits (sqlxTransactionQ beginFails []).1 +
      rollbacks (sqlxTransactionQ beginFails []).1 ≠ 1 := by
  decide

/-- C1, amended: the number of `Commit` calls plus the number of `Rollback`
calls is 1 when the transaction begins, whatever happens after (a timeout
statement fails, the work returns nil, returns an error, or panics), and 0
when `BeginTxx` fails. -/
theorem sqlxTransactionQ_commit_or_rollback_once (c : Collaborators)
    (optss : List TxOptions) :
    commits (sqlxTransactionQ c optss).1 + rollbacks (sqlxTransactionQ c optss).1 =
      if c.beginTxx (applyDefaults optss).2.2 = none then 1 else 0 := by
  unfold sqlxTransactionQ
  cases hb : c.beginTxx (applyDefaults optss).2.2 <;> simp only [hb]
  · have hd := deferred_commits_rollbacks c
      (body c (applyDefaults optss).1 (applyDefaults optss).2.1).2
    rw [commits_cons_append, rollbacks_cons_append, body_commits, body_rollbacks]
    simp [commits, rollbacks] at hd ⊢
    omega
  · simp [commits, rollbacks]

/-- When the transaction begins and every statement it issues succeeds, the
body finishes the way the work does. -/
theorem body_exit_of_directivesSucceed (c : Collaborators) (optss : List TxOptions)
    (hbegin : c.beginTxx (applyDefaults optss).2.2 = none)
    (hdir : directivesSucceed c optss = true) :
    (body c (applyDefaults optss).1 (applyDefaults optss).2.1).2 = c.fn := by
  unfold directivesSucceed sqlxTransactionQ at hdir
  simp only [hbegin] at hdir
  unfold body idleTimeoutThenFn at hdir ⊢
  cases hl : c.exec (Stmt.setLocalLockTimeout (Milliseconds (applyDefaults optss).1)) <;>
  cases hi : c.exec (Stmt.setLocalIdleInTransactionSessionTimeout
      (Milliseconds (applyDefaults optss).2.1)) <;>
  split_ifs at hdir ⊢ <;> simp_all

/-- The call under the hypotheses of `body_exit_of_directivesSucceed`. -/
theorem sqlxTransactionQ_of_directivesSucceed (c : Collaborators)
    (optss : List TxOptions)
    (hbegin : c.beginTxx (applyDefaults optss).2.2 = none)
    (hdir : directivesSucceed c optss = true) :
    sqlxTransactionQ c optss =
      (Event.beginTxx (applyDefaults optss).2.2 ::
        ((body c (applyDefaults optss).1 (applyDefaults optss).2.1).1 ++
          (deferred c c.fn).1),
        (deferred c c.fn).2) := by
  have h := body_exit_of_directivesSucceed c optss hbegin hdir
  unfold sqlxTransactionQ
  simp only [hbegin, h]

/-- C2: when the work returns a non-nil error `e`, `Rollback` is called once and
`Commit` never; the call returns `e` itself when the rollback succeeds, and a
composite holding both `e` and the rollback error when it fails. -/
theorem sqlxTransactionQ_error_rolls_back (c : Collaborators) (optss : List TxOptions)
    (e : Err)
    (hbegin : c.beginTxx (applyDefaults optss).2.2 = none)
    (hdir : directivesSucceed c optss = true)
    (hfn : c.fn = Outcome.returned (some e)) :
    rollbacks (sqlxTransactionQ c optss).1 = 1 ∧
    commits (sqlxTransactionQ c optss).1 = 0 ∧
    (c.rollback = none → (sqlxTransactionQ c optss).2 = Outcome.returned (some e)) ∧
    (∀ r, c.rollback = some r →
      (sqlxTransactionQ c optss).2 =
          Outcome.returned (some (Err.combined e (Err.withStack r))) ∧
      (Err.combined e (Err.withStack r)).contains e = true ∧
      (Err.combined e (Err.withStack r)).contains r = true) := by
  rw [sqlxTransactionQ_of_directivesSucceed c optss hbegin hdir, hfn]
  refine ⟨?_, ?_, ?_, ?_⟩
  · rw [rollbacks_cons_append, body_rollbacks]
    simp [rollbacks, deferred, rollbackOrCommit]
  · rw [commits_cons_append, body_commits]
    simp [commits, deferred, rollbackOrCommit]
  · intro hr; simp [deferred, rollbackOrCommit, hr]
  · intro r hr
    refine ⟨by simp [deferred, rollbackOrCommit, hr, multierrCombine, errorsWithStack],
      ?_, ?_⟩
    · cases e <;> simp [Err.contains]
    · cases r <;> simp [Err.contains]

/-- C2 at a concrete input: a failing rollback after the work returned an error. -/
theorem sqlxTransactionQ_error_rolls_back_witness :
    rollbacks (sqlxTransactionQ
        (rollbackFails (Outcome.returned (some (Err.base "insert failed")))) []).1 = 1 ∧
    (sqlxTransactionQ
        (rollbackFails (Outcome.returned (some (Err.base "insert failed")))) []).2 =
      Outcome.returned (some (Err.combined (Err.base "insert failed")
        (Err.withStack (Err.base "driver: bad connection")))) :=
  have h := sqlxTransactionQ_error_rolls_back
    (rollbackFails (Outcome.returned (some (Err.base "insert failed")))) []
    (Err.base "insert failed") (by decide) (by decide) (by decide)
  ⟨h.1, (h.2.2.2 (Err.base "driver: bad connection") (by decide)).1⟩

/-- C3: when the work returns nil, `Commit` is called once and `Rollback` never;
the call returns nil exactly when the commit succeeds, and a commit failure is
returned (with a stack attached by `errors.WithStack`). -/
theorem sqlxTransactionQ_success_commits (c : Collaborators) (optss : List TxOptions)
    (hbegin : c.beginTxx (applyDefaults optss).2.2 = none)
    (hdir : directivesSucceed c optss = true)
    (hfn : c.fn = Outcome.returned none) :
    commits (sqlxTransactionQ c optss).1 = 1 ∧
    rollbacks (sqlxTransactionQ c optss).1 = 0 ∧
    ((sqlxTransactionQ c optss).2 = Outcome.returned none ↔ c.commit = none) ∧
    (∀ ce, c.commit = some ce →
      (sqlxTransactionQ c optss).2 = Outcome.returned (some (Err.withStack ce)) ∧
      (Err.withStack ce).Cause = ce.Cause) := by
  rw [sqlxTransactionQ_of_directivesSucceed c optss hbegin hdir, hfn]
  refine ⟨?_, ?_, ?_, ?_⟩
  · rw [commits_cons_append, body_commits]
    simp [commits, deferred, rollbackOrCommit]
  · rw [rollbacks_cons_append, body_rollbacks]
    simp [rollbacks, deferred, rollbackOrCommit]
  · cases hc : c.commit <;> simp [deferred, rollbackOrCommit, hc, errorsWithStack]
  · intro ce hc
    exact ⟨by simp [deferred, rollbackOrCommit, hc, errorsWithStack], by simp [Err.Cause]⟩

/-- C3 at a concrete input: healthy collaborators, options with two timeouts. -/
theorem sqlxTransactionQ_success_commits_witness :
    commits (sqlxTransactionQ (healthy (Outcome.returned none)) [shortTimeouts]).1 = 1 ∧
    rollbacks (sqlxTransactionQ (healthy (Outcome.returned none)) [shortTimeouts]).1 = 0 ∧
    (sqlxTransactionQ (healthy (Outcome.returned none)) [shortTimeouts]).2 =
      Outcome.returned none :=
  have h := sqlxTransactionQ_success_commits (healthy (Outcome.returned none))
    [shortTimeouts] (by decide) (by decide) (by decide)
  ⟨h.1, h.2.1, h.2.2.1.mpr (by decide)⟩

/-- The branches on `err` issue no statement and do not call the work. -/
theorem rollbackOrCommit_events (c : Collaborators) (err : Option Err) (ev : Event)
    (hev : ev ∈ (rollbackOrCommit c err).1) : ev.isExec = false ∧ ev ≠ Event.fn := by
  unfold rollbackOrCommit at hev
  cases err with
  | none => simp at hev; subst hev; exact ⟨rfl, by simp⟩
  | some e => simp at hev; rcases hev with h | h <;> subst h <;> exact ⟨rfl, by simp⟩

/-- The deferred function issues no statement and does not call the work. -/
theorem deferred_events (c : Collaborators) (exit : Outcome) (ev : Event)
    (hev : ev ∈ (deferred c exit).1) : ev.isExec = false ∧ ev ≠ Event.fn := by
  unfold deferred at hev
  rcases exit with err | p
  · exact rollbackOrCommit_events c err ev hev
  · by_cases hp : p = PanicVal.nil
    · simp only [hp, ne_eq, not_true_eq_false, if_false] at hev
      exact rollbackOrCommit_events c none ev hev
    · cases hw : c.rollbackWithinCeiling <;> cases hr : c.rollback <;>
        simp [hp, hw, hr] at hev <;> rcases hev with h | h | h | h <;>
        first
          | (subst h; exact ⟨rfl, by simp⟩)
          | (rcases h with h | h <;> subst h <;> exact ⟨rfl, by simp⟩)

theorem deferred_any_isExec (c : Collaborators) (exit : Outcome) :
    (deferred c exit).1.any Event.isExec = false := by
  rw [List.any_eq_false]
  intro ev hev
  simp [(deferred_events c exit ev hev).1]

theorem isExec_of_isLockTimeoutExec (ev : Event) (h : ev.isLockTimeoutExec = true) :
    ev.isExec = true := by
  cases ev <;> simp_all [Event.isLockTimeoutExec, Event.isExec]

theorem isExec_of_isIdleTimeoutExec (ev : Event) (h : ev.isIdleTimeoutExec = true) :
    ev.isExec = true := by
  cases ev <;> simp_all [Event.isIdleTimeoutExec, Event.isExec]

theorem deferred_any_isLockTimeoutExec (c : Collaborators) (exit : Outcome) :
    (deferred c exit).1.any Event.isLockTimeoutExec = false := by
  rw [List.any_eq_false]
  intro ev hev h
  have := isExec_of_isLockTimeoutExec ev h
  simp [(deferred_events c exit ev hev).1] at this

theorem deferred_any_isIdleTimeoutExec (c : Collaborators) (exit : Outcome) :
    (deferred c exit).1.any Event.isIdleTimeoutExec = false := by
  rw [List.any_eq_false]
  intro ev hev h
  have := isExec_of_isIdleTimeoutExec ev h
  simp [(deferred_events c exit ev hev).1] at this

theorem body_any_isLockTimeoutExec (c : Collaborators)
    (lockTimeout idleInTxSessionTimeout : Duration) :
    (body c lockTimeout idleInTxSessionTimeout).1.any Event.isLockTimeoutExec = true ↔
      lockTimeout ≠ DefaultLockTimeout := by
  unfold body idleTimeoutThenFn
  cases hl : c.exec (Stmt.setLocalLockTimeout (Milliseconds lockTimeout)) <;>
  cases hi : c.exec (Stmt.setLocalIdleInTransactionSessionTimeout
      (Milliseconds idleInTxSessionTimeout)) <;>
  split_ifs <;> simp_all [Event.isLockTimeoutExec]

theorem body_any_isIdleTimeoutExec (c : Collaborators)
    (lockTimeout idleInTxSessionTimeout : Duration) :
    (body c lockTimeout idleInTxSessionTimeout).1.any Event.isIdleTimeoutExec = true ↔
      idleInTxSessionTimeout ≠ DefaultIdleInTxSessionTimeout ∧
      (lockTimeout = DefaultLockTimeout ∨
        c.exec (Stmt.setLocalLockTimeout (Milliseconds lockTimeout)) = none) := by
  unfold body idleTimeoutThenFn
  cases hl : c.exec (Stmt.setLocalLockTimeout (Milliseconds lockTimeout)) <;>
  cases hi : c.exec (Stmt.setLocalIdleInTransactionSessionTimeout
      (Milliseconds idleInTxSessionTimeout)) <;>
  split_ifs <;> simp_all [Event.isIdleTimeoutExec]

theorem body_any_isExec_of_defaults (c : Collaborators) :
    (body c DefaultLockTimeout DefaultIdleInTxSessionTimeout).1.any Event.isExec = false := by
  simp [body, idleTimeoutThenFn, Event.isExec]

theorem body_noExecAfterFn (c : Collaborators)
    (lockTimeout idleInTxSessionTimeout : Duration) :
    noExecAfterFn (body c lockTimeout idleInTxSessionTimeout).1 = true := by
  unfold body idleTimeoutThenFn
  cases hl : c.exec (Stmt.setLocalLockTimeout (Milliseconds lockTimeout)) <;>
  cases hi : c.exec (Stmt.setLocalIdleInTransactionSessionTimeout
      (Milliseconds idleInTxSessionTimeout)) <;>
  split_ifs <;> simp_all [noExecAfterFn]

theorem noExecAfterFn_append (xs ys : List Event) (hx : noExecAfterFn xs = true)
    (hy : ys.any Event.isExec = false) : noExecAfterFn (xs ++ ys) = true := by
  induction xs with
  | nil =>
    induction ys with
    | nil => rfl
    | cons y ys ih =>
      simp only [List.any_cons, Bool.or_eq_false_iff] at hy
      cases y <;> simp_all [noExecAfterFn]
  | cons x xs ih =>
    cases x <;> simp_all [noExecAfterFn]

theorem noExecAfterFn_split (pre post l : List Event) (h : noExecAfterFn l = true)
    (hs : l = pre ++ Event.fn :: post) : post.any Event.isExec = false := by
  induction pre generalizing l with
  | nil =>
    subst hs
    simpa [noExecAfterFn] using h
  | cons x pre ih =>
    subst hs
    cases x with
    | fn =>
      have h2 : (pre ++ Event.fn :: post).any Event.isExec = false := by
        simpa [noExecAfterFn] using h
      rw [List.any_append, List.any_cons] at h2
      simp only [Bool.or_eq_false_iff] at h2
      exact h2.2.2
    | _ => exact ih _ (by simpa [noExecAfterFn] using h) rfl

/-- C5: when the transaction begins, the `SET LOCAL lock_timeout` statement is
issued exactly when the resolved lock timeout is not the default; the
`SET LOCAL idle_in_transaction_session_timeout` statement only when the resolved
idle timeout is not the default, and then whenever the lock statement did not
fail; with no options, zero timeouts or the default timeouts named, no statement
is issued; and no statement is issued after the work is called. -/
theorem sqlxTransactionQ_timeout_directives (c : Collaborators)
    (optss : List TxOptions)
    (hbegin : c.beginTxx (applyDefaults optss).2.2 = none) :
    ((sqlxTransactionQ c optss).1.any Event.isLockTimeoutExec = true ↔
      (applyDefaults optss).1 ≠ DefaultLockTimeout) ∧
    ((sqlxTransactionQ c optss).1.any Event.isIdleTimeoutExec = true →
      (applyDefaults optss).2.1 ≠ DefaultIdleInTxSessionTimeout) ∧
    (((applyDefaults optss).1 = DefaultLockTimeout ∨
        c.exec (Stmt.setLocalLockTimeout (Milliseconds (applyDefaults optss).1)) = none) →
      (applyDefaults optss).2.1 ≠ DefaultIdleInTxSessionTimeout →
      (sqlxTransactionQ c optss).1.any Event.isIdleTimeoutExec = true) ∧
    ((optss = [] ∨ ∃ o rest, optss = o :: rest ∧
        (o.LockTimeout = 0 ∨ o.LockTimeout = 15 * Second) ∧
        (o.IdleInTxSessionTimeout = 0 ∨ o.IdleInTxSessionTimeout = 1 * Hour)) →
      (sqlxTransactionQ c optss).1.any Event.isExec = false) ∧
    (∀ pre post, (sqlxTransactionQ c optss).1 = pre ++ Event.fn :: post →
      ∀ stmt, Event.exec stmt ∉ post) := by
  have hshape : (sqlxTransactionQ c optss).1 =
      Event.beginTxx (applyDefaults optss).2.2 ::
        ((body c (applyDefaults optss).1 (applyDefaults optss).2.1).1 ++
          (deferred c (body c (applyDefaults optss).1 (applyDefaults optss).2.1).2).1) := by
    unfold sqlxTransactionQ
    simp only [hbegin]
  have hidle := body_any_isIdleTimeoutExec c (applyDefaults optss).1
    (applyDefaults optss).2.1
  rw [hshape]
  refine ⟨?_, ?_, ?_, ?_, ?_⟩
  · rw [List.any_cons, List.any_append, deferred_any_isLockTimeoutExec,
      ← body_any_isLockTimeoutExec c (applyDefaults optss).1 (applyDefaults optss).2.1]
    simp [Event.isLockTimeoutExec]
  · rw [List.any_cons, List.any_append, deferred_any_isIdleTimeoutExec]
    intro h
    simp only [Event.isIdleTimeoutExec, Bool.false_or, Bool.or_false] at h
    exact (hidle.mp h).1
  · intro hl hi
    rw [List.any_cons, List.any_append, deferred_any_isIdleTimeoutExec]
    simp only [Event.isIdleTimeoutExec, Bool.false_or, Bool.or_false]
    exact hidle.mpr ⟨hi, hl⟩
  · intro hopts
    have hdef : (applyDefaults optss).1 = DefaultLockTimeout ∧
        (applyDefaults optss).2.1 = DefaultIdleInTxSessionTimeout := by
      rcases hopts with h | ⟨o, rest, h, hl, hi⟩
      · subst h; exact ⟨rfl, rfl⟩
      · subst h
        simp only [applyDefaults]
        constructor
        · rcases hl with hl | hl <;> simp [hl, DefaultLockTimeout]
        · rcases hi with hi | hi <;> simp [hi, DefaultIdleInTxSessionTimeout]
    rw [hdef.1, hdef.2, List.any_cons, List.any_append, deferred_any_isExec,
      body_any_isExec_of_defaults]
    simp [Event.isExec]
  · intro pre post hs stmt hmem
    have hno : noExecAfterFn (Event.beginTxx (applyDefaults optss).2.2 ::
        ((body c (applyDefaults optss).1 (applyDefaults optss).2.1).1 ++
          (deferred c (body c (applyDefaults optss).1
            (applyDefaults optss).2.1).2).1)) = true := by
      simp only [noExecAfterFn]
      exact noExecAfterFn_append _ _ (body_noExecAfterFn c _ _) (deferred_any_isExec c _)
    have hpost := noExecAfterFn_split pre post _ hno hs
    rw [List.any_eq_false] at hpost
    exact hpost _ hmem (by simp [Event.isExec])

/-- C5 at a concrete input: two timeouts asked for, both statements issued
before the work. -/
theorem sqlxTransactionQ_timeout_directives_witness :
    (sqlxTransactionQ (healthy (Outcome.returned none)) [shortTimeouts]).1 =
      [Event.beginTxx { Isolation := 2, ReadOnly := false },
        Event.exec (Stmt.setLocalLockTimeout 1000),
        Event.exec (Stmt.setLocalIdleInTransactionSessionTimeout 2000),
        Event.fn, Event.commit] ∧
    (sqlxTransactionQ (healthy (Outcome.returned none)) [shortTimeouts]).1.any
      Event.isLockTimeoutExec = true :=
  ⟨by decide,
    (sqlxTransactionQ_timeout_directives (healthy (Outcome.returned none))
      [shortTimeouts] (by decide)).1.mpr (by decide)⟩

/-! ## Properties of offchainreporting/data_source.go -/

theorem trySend_eq_none (ch : Chan) (run : Run) (h : ch.cap ≤ ch.buf.length) :
    ch.trySend run = none := by
  unfold Chan.trySend
  rw [if_neg (by omega)]

theorem trySend_eq_some (ch : Chan) (run : Run) (h : ch.buf.length < ch.cap) :
    ch.trySend run = some { ch with buf := ch.buf ++ [run] } := by
  unfold Chan.trySend
  rw [if_pos h]

/-- A result set with zero or several outcomes has no singular result. -/
theorem SingularResult_error_of_length_ne_one (fr : FinalResult)
    (h : fr.outcomes.length ≠ 1) :
    fr.SingularResult = Except.error (Err.base
      "cannot cast FinalResult to singular result; it does not have exactly 1 outcome") := by
  unfold FinalResult.SingularResult
  split
  · rename_i r hr
    rw [hr] at h
    exact absurd rfl h
  · rfl

/-- The data source after a call differs from the one before at most in the
queue, unless the call returns an observation. -/
theorem Observe_current (env : ObserveEnv) (ds : dataSource) :
    (ds.Observe env).ds.current = ds.current ∨
    (∃ v, (ds.Observe env).observation = some v ∧ (ds.Observe env).err = none ∧
      (ds.Observe env).ds.current = { LatestAnswer := some v, UpdatedAt := some env.now }) := by
  unfold dataSource.Observe
  split
  · exact Or.inl rfl
  · dsimp only
    split
    · exact Or.inl rfl
    · split
      · exact Or.inl rfl
      · split
        · exact Or.inl rfl
        · split
          · exact Or.inl rfl
          · exact Or.inr ⟨_, rfl, rfl, rfl⟩

/-- The call when the run finishes without error and the queue is at capacity. -/
theorem Observe_of_buffer_full (env : ObserveEnv) (ds : dataSource) (run : Run)
    (trrs : TaskRunResults)
    (hrun : env.ExecuteRun ds.spec (ds.observeVars env) = (run, trrs, none))
    (hfull : ds.runResults.cap ≤ ds.runResults.buf.length) :
    ds.Observe env = { observation := none, err := some (bufferFullError ds), ds := ds } := by
  unfold dataSource.Observe
  simp only [hrun, trySend_eq_none ds.runResults run hfull]

/-- The call when the run finishes without error, the queue has room and the
result set has no singular result. -/
theorem Observe_of_singular_error (env : ObserveEnv) (ds : dataSource) (run : Run)
    (trrs : TaskRunResults) (serr : Err)
    (hrun : env.ExecuteRun ds.spec (ds.observeVars env) = (run, trrs, none))
    (hroom : ds.runResults.buf.length < ds.runResults.cap)
    (hsing : trrs.FinalResult.SingularResult = Except.error serr) :
    ds.Observe env =
      { observation := none, err := some (singularResultError ds serr),
        ds := { ds with runResults :=
          { ds.runResults with buf := ds.runResults.buf ++ [run] } } } := by
  unfold dataSource.Observe
  simp only [hrun, trySend_eq_some ds.runResults run hroom, hsing]

/-- C7, counterexample: with the queue at capacity, a run whose result tree has
two terminal outcomes makes `Observe` fail with the buffer-full error, not with
the result-reduction error. -/
theorem Observe_full_queue_hides_reduction_error :
    (fullDataSource.Observe (runYielding twoOutcomes 200)).err =
      some (Err.base "unable to enqueue run save for job ID 7, buffer full") ∧
    twoOutcomes.FinalResult.outcomes.length = 2 ∧
    twoOutcomes.FinalResult.SingularResult = Except.error (Err.base
      "cannot cast FinalResult to singular result; it does not have exactly 1 outcome") ∧
    ∀ serr, (fullDataSource.Observe (runYielding twoOutcomes 200)).err ≠
      some (Err.wrap serr "error getting singular result for job ID 7") := by
  have h : (fullDataSource.Observe (runYielding twoOutcomes 200)).err =
      some (Err.base "unable to enqueue run save for job ID 7, buffer full") := by
    decide
  refine ⟨h, by decide, rfl, ?_⟩
  intro serr
  rw [h]
  simp

/-- C7, amended: when the run finishes without error, the hand-off queue has
room and the result set has no singular result (zero or several terminal
outcomes), `Observe` fails with the result-reduction error; with or without
room in the queue it returns no observation. -/
theorem Observe_reduction_error (env : ObserveEnv) (ds : dataSource) (run : Run)
    (trrs : TaskRunResults) (serr : Err)
    (hrun : env.ExecuteRun ds.spec (ds.observeVars env) = (run, trrs, none))
    (hsing : trrs.FinalResult.SingularResult = Except.error serr) :
    (ds.Observe env).observation = none ∧
    (ds.Observe env).err ≠ none ∧
    (ds.runResults.buf.length < ds.runResults.cap →
      (ds.Observe env).err =
        some (Err.wrap serr
          ("error getting singular result for job ID " ++ toString ds.spec.JobID))) := by
  by_cases hroom : ds.runResults.buf.length < ds.runResults.cap
  · rw [Observe_of_singular_error env ds run trrs serr hrun hroom hsing]
    exact ⟨rfl, by simp, fun _ => rfl⟩
  · rw [Observe_of_buffer_full env ds run trrs hrun (by omega)]
    exact ⟨rfl, by simp, fun h => absurd h hroom⟩

/-- C7, amended, at a concrete input: two terminal outcomes, room in the queue. -/
theorem Observe_reduction_error_witness :
    ((freshDataSource 1).Observe (runYielding twoOutcomes 200)).observation = none ∧
    ((freshDataSource 1).Observe (runYielding twoOutcomes 200)).err =
      some (Err.wrap (Err.base
        "cannot cast FinalResult to singular result; it does not have exactly 1 outcome")
        "error getting singular result for job ID 7") :=
  have h := Observe_reduction_error (runYielding twoOutcomes 200) (freshDataSource 1)
    { ID := 1 } twoOutcomes (Err.base
      "cannot cast FinalResult to singular result; it does not have exactly 1 outcome")
    (by decide) rfl
  ⟨h.1, h.2.2 (by decide)⟩

/-- C8: when the run finishes without error and the hand-off queue is at
capacity, `Observe` returns no observation and the buffer-full error, whatever
the result tree is, and leaves the queue (and the whole data source) as it
was. -/
theorem Observe_buffer_full (env : ObserveEnv) (ds : dataSource) (run : Run)
    (trrs : TaskRunResults)
    (hrun : env.ExecuteRun ds.spec (ds.observeVars env) = (run, trrs, none))
    (hfull : ds.runResults.cap ≤ ds.runResults.buf.length) :
    (ds.Observe env).observation = none ∧
    (ds.Observe env).err =
      some (Err.base ("unable to enqueue run save for job ID " ++
        toString ds.spec.JobID ++ ", buffer full")) ∧
    (ds.Observe env).ds.runResults = ds.runResults ∧
    (ds.Observe env).ds = ds := by
  rw [Observe_of_buffer_full env ds run trrs hrun hfull]
  exact ⟨rfl, rfl, rfl, rfl⟩

/-- C8 at a concrete input: a full queue and a run with the valid value 42. -/
theorem Observe_buffer_full_witness :
    (fullDataSource.Observe (runYielding (oneValue (Value.int 42)) 200)).observation
      = none ∧
    (fullDataSource.Observe (runYielding (oneValue (Value.int 42)) 200)).err =
      some (Err.base "unable to enqueue run save for job ID 7, buffer full") ∧
    (fullDataSource.Observe (runYielding (oneValue (Value.int 42)) 200)).ds.runResults.buf
      = [{ ID := 0 }] :=
  have h := Observe_buffer_full (runYielding (oneValue (Value.int 42)) 200)
    fullDataSource { ID := 1 } (oneValue (Value.int 42)) (by decide) (by decide)
  ⟨h.1, by decide, by decide⟩

/-- C9: a call of `Observe` that returns an error returns no observation and
leaves the cached value and timestamp as they were. -/
theorem Observe_error_keeps_cache (env : ObserveEnv) (ds : dataSource)
    (herr : (ds.Observe env).err ≠ none) :
    (ds.Observe env).ds.current = ds.current ∧
    (ds.Observe env).ds.currentAnswer = ds.currentAnswer ∧
    (ds.Observe env).observation = none := by
  have hcur : (ds.Observe env).ds.current = ds.current := by
    rcases Observe_current env ds with h | ⟨v, _, h, _⟩
    · exact h
    · exact absurd h herr
  refine ⟨hcur, by simp [dataSource.currentAnswer, hcur], ?_⟩
  revert herr
  unfold dataSource.Observe
  split
  · intro _; rfl
  · dsimp only
    split
    · intro _; rfl
    · split
      · intro _; rfl
      · split
        · intro _; rfl
        · split
          · intro _; rfl
          · intro h; exact absurd rfl h

/-- C9 at a concrete input: the result carries an error, the cache keeps 5. -/
theorem Observe_error_keeps_cache_witness :
    ({ fullDataSource with runResults := { buf := [], cap := 4 } }.Observe
      (runYielding (oneError (Err.base "bridge down")) 200)).err =
        some (Err.base "bridge down") ∧
    ({ fullDataSource with runResults := { buf := [], cap := 4 } }.Observe
      (runYielding (oneError (Err.base "bridge down")) 200)).ds.current =
        { LatestAnswer := some 5, UpdatedAt := some 100 } :=
  ⟨by decide,
    (Observe_error_keeps_cache (runYielding (oneError (Err.base "bridge down")) 200)
      { fullDataSource with runResults := { buf := [], cap := 4 } } (by decide)).1⟩

end Chainlink
